import Mathlib

/-
Verification of the virtual-disk handling core (vhd.c): VHD footer
construction and checksum (AppendVHDFooter), image classification
(IsCompressedBootableImage, IsHDImage) and WIM extraction dispatch
(WimExtractFile).  Machine integers are modelled as Nat with explicit
reductions mod 2^w where the C code truncates; the 512-byte footer is
modelled as a list of byte values in file order (the C code stores
multi-byte fields byte-swapped, i.e. big-endian, in the buffer).
-/

namespace Vhd

/-- Big-endian bytes of the low w bytes of a natural number, most
significant byte first, as laid out in the footer buffer after the
byte swap performed by the source. -/
def bytesBE : Nat → Nat → List Nat
  | 0, _ => []
  | w + 1, v => v / 256 ^ w % 256 :: bytesBE w v

/-- A char/byte array field of fixed width n: bytes reduced mod 256,
truncated or zero-padded to exactly n bytes (the constructors below
always supply exactly n bytes, matching memcpy in the source). -/
def padBytes (n : Nat) (l : List Nat) : List Nat :=
  (l.map (fun b => b % 256)).take n ++ List.replicate (n - l.length) 0

/-- Reading a big-endian u32 from the first four bytes of a buffer,
as bswap_uint32 does on a loaded field. -/
def readBE32 (l : List Nat) : Nat :=
  l.getD 0 0 * 16777216 + l.getD 1 0 * 65536 + l.getD 2 0 * 256 + l.getD 3 0

/-- Ones-complement of a u32 value (the ~ operator applied to the
wrapped byte sum in the source). -/
def compl32 (x : Nat) : Nat := 4294967295 - x % 4294967296

/-- The vhd_footer record of vhd.c (512 bytes, packed).  Multi-byte
integer fields hold the logical (host) value; serializeFooter lays
them out big-endian as the source does via bswap before storing. -/
structure VhdFooter where
  cookie : List Nat
  features : Nat
  file_format_version : Nat
  data_offset : Nat
  timestamp : Nat
  creator_app : List Nat
  creator_version : Nat
  creator_host_os : List Nat
  original_size : Nat
  current_size : Nat
  cylinders : Nat
  heads : Nat
  sectors : Nat
  disk_type : Nat
  checksum : Nat
  unique_id : List Nat
  saved_state : Nat
  reserved : List Nat
  deriving Repr, DecidableEq

/-- The VHD_FOOTER_COOKIE bytes: the ASCII codes of "conectix". -/
def conectixStr : List Nat := [99, 111, 110, 101, 99, 116, 105, 120]

/-- Byte layout of the footer in file order, per the packed struct
declaration: cookie[8], features u32, file_format_version u32,
data_offset u64, timestamp u32, creator_app[4], creator_version u32,
creator_host_os[4], original_size u64, current_size u64, geometry
(cylinders u16, heads u8, sectors u8), disk_type u32, checksum u32,
unique_id[16], saved_state u8, reserved[427].  512 bytes in total. -/
def serializeFooter (f : VhdFooter) : List Nat :=
  padBytes 8 f.cookie ++ bytesBE 4 f.features ++ bytesBE 4 f.file_format_version ++
  bytesBE 8 f.data_offset ++ bytesBE 4 f.timestamp ++ padBytes 4 f.creator_app ++
  bytesBE 4 f.creator_version ++ padBytes 4 f.creator_host_os ++ bytesBE 8 f.original_size ++
  bytesBE 8 f.current_size ++ bytesBE 2 f.cylinders ++ [f.heads % 256, f.sectors % 256] ++
  bytesBE 4 f.disk_type ++ bytesBE 4 f.checksum ++ padBytes 16 f.unique_id ++
  [f.saved_state % 256] ++ padBytes 427 f.reserved

/-- CHS geometry result of the legacy algorithm in AppendVHDFooter. -/
structure CHSGeometry where
  sectorsPerTrack : Nat
  heads : Nat
  cylinderTimesHeads : Nat
  deriving Repr, DecidableEq

/-- The CHS computation of AppendVHDFooter (vhd.c lines 169-192),
run on the already clamped totalSectors.  heads is a uint8_t in the
source, so the intermediate (cth+1023)/1024 is truncated mod 256. -/
def computeCHS (totalSectors : Nat) : CHSGeometry :=
  if totalSectors ≥ 65535 * 16 * 63 then
    { sectorsPerTrack := 255, heads := 16, cylinderTimesHeads := totalSectors / 255 }
  else
    let cth := totalSectors / 17
    let h0 := (cth + 1023) / 1024 % 256
    let h1 := if h0 < 4 then 4 else h0
    let g1 : CHSGeometry :=
      if cth ≥ h1 * 1024 ∨ h1 > 16 then
        { sectorsPerTrack := 31, heads := 16, cylinderTimesHeads := totalSectors / 31 }
      else
        { sectorsPerTrack := 17, heads := h1, cylinderTimesHeads := cth }
    if g1.cylinderTimesHeads ≥ g1.heads * 1024 then
      { sectorsPerTrack := 63, heads := 16, cylinderTimesHeads := totalSectors / 63 }
    else g1

/-- totalSectors as computed and clamped by AppendVHDFooter
(vhd.c lines 164-167). -/
def vhdTotalSectors (fileSize : Nat) : Nat :=
  min (fileSize / 512) (65535 * 16 * 255)

/-- The footer record populated by AppendVHDFooter before the checksum
is computed (checksum field still zero, from calloc).  fileSize is the
current end-of-file offset; timestamp, creatorVersion and uid stand
for the run-time dependent inputs (_time32, rufus_version, UuidCreate). -/
def mkVHDFooterBase (fileSize timestamp creatorVersion : Nat) (uid : List Nat) : VhdFooter :=
  let g := computeCHS (vhdTotalSectors fileSize)
  { cookie := conectixStr
    features := 2
    file_format_version := 65536
    data_offset := 18446744073709551615
    timestamp := timestamp % 4294967296
    creator_app := [114, 117, 102, 117]
    creator_version := creatorVersion % 4294967296
    creator_host_os := [87, 105, 50, 107]
    original_size := fileSize % 18446744073709551616
    current_size := fileSize % 18446744073709551616
    cylinders := g.cylinderTimesHeads / g.heads % 65536
    heads := g.heads
    sectors := g.sectorsPerTrack
    disk_type := 2
    checksum := 0
    unique_id := uid
    saved_state := 0
    reserved := List.replicate 427 0 }

/-- The footer checksum of vhd.c lines 198-201: ones-complement of the
wrapping u32 sum of all 512 bytes with the checksum field zero. -/
def footerChecksum (f : VhdFooter) : Nat :=
  compl32 (serializeFooter { f with checksum := 0 }).sum

/-- The fully populated footer written by AppendVHDFooter. -/
def mkVHDFooter (fileSize timestamp creatorVersion : Nat) (uid : List Nat) : VhdFooter :=
  { mkVHDFooterBase fileSize timestamp creatorVersion uid with
    checksum := footerChecksum (mkVHDFooterBase fileSize timestamp creatorVersion uid) }

/-- Zeroing the checksum field of a 512-byte footer buffer (the
assignment footer->checksum = 0 before recomputation in IsHDImage);
the field occupies bytes 64..67. -/
def zeroChecksumField (bytes : List Nat) : List Nat :=
  bytes.take 64 ++ [0, 0, 0, 0] ++ bytes.drop 68

/-- The checksum validation of IsHDImage (vhd.c lines 296-303): the
stored big-endian checksum field equals the ones-complement of the
wrapping byte sum of the buffer with that field zeroed. -/
def vhdChecksumMatches (fb : List Nat) : Bool :=
  readBE32 (fb.drop 64) == compl32 (zeroChecksumField fb).sum

/-- The bled_compression_type values used by the extension table. -/
inductive BledComp where
  | none | xz | gzip | lzma | bzip2 | lzw
  deriving Repr, DecidableEq

/-- The comp_assoc table blah[] of vhd.c, in declaration order. -/
def blah : List (String × BledComp) :=
  [(".xz", BledComp.xz), (".gz", BledComp.gzip), (".lzma", BledComp.lzma),
   (".bz2", BledComp.bzip2), (".Z", BledComp.lzw)]

/-- The backwards dot scan of IsCompressedBootableImage: starting from
index i, walk left while the character is not a dot and the index is
not zero; returns the index where the scan stops. -/
def findDot (cs : List Char) : Nat → Nat
  | 0 => 0
  | i + 1 => if cs.getD (i + 1) ' ' = '.' then i + 1 else findDot cs i

/-- IsCompressedBootableImage (vhd.c lines 230-249): sets
compression_type to NONE, scans backwards for the last dot, returns
FALSE if the scan stopped at the start of the string, otherwise looks
the suffix up in the table (first match wins).  The first component is
the compression_type written into the report, the second the return
value. -/
def IsCompressedBootableImage (path : String) : BledComp × Bool :=
  let cs := path.data
  let p := findDot cs (cs.length - 1)
  if p = 0 then (BledComp.none, false)
  else
    match blah.find? (fun e => e.1 = String.mk (cs.drop p)) with
    | some e => (e.2, true)
    | Option.none => (BledComp.none, false)

/-- The fields of iso_report that IsHDImage reads or writes.
is_vhd is the container-format flag of the report. -/
structure ImageReport where
  compression_type : BledComp
  is_bootable_img : Bool
  projected_size : Nat
  is_vhd : Bool
  deriving Repr, DecidableEq

/-- A freshly reset report (all signals clear), the state of iso_report
at the start of a classification call. -/
def freshReport : ImageReport :=
  { compression_type := BledComp.none, is_bootable_img := false,
    projected_size := 0, is_vhd := false }

/-- The environment a classification call runs against: whether the
open, size query and footer read succeed, the verdict of the external
AnalyzeMBR collaborator, and the file content as bytes. -/
structure HDEnv where
  openOk : Bool
  sizeOk : Bool
  readOk : Bool
  mbrBootable : Bool
  fileBytes : List Nat
  deriving Repr, DecidableEq

/-- IsHDImage (vhd.c lines 252-314) as a state transformer on the
report.  On open failure nothing is written and the prior report is
returned.  Otherwise: compression type and extension-based bootability
are set; for uncompressed images AnalyzeMBR decides bootability; the
projected size is the file size; if the type is NONE and the size is at
least 512+512, the last 512 bytes are read and, when the cookie
matches, 512 is subtracted from the projected size, an unsupported
version or disk type clears the bootable flag, and otherwise the
checksum is validated (logged only) and is_vhd is set. -/
def IsHDImage (path : String) (env : HDEnv) (r0 : ImageReport) : ImageReport :=
  if env.openOk then
    let cb := IsCompressedBootableImage path
    let r1 := { r0 with compression_type := cb.1, is_bootable_img := cb.2 }
    let r2 := if cb.1 = BledComp.none then { r1 with is_bootable_img := env.mbrBootable } else r1
    if env.sizeOk then
      let r3 := { r2 with projected_size := env.fileBytes.length }
      if cb.1 = BledComp.none ∧ r3.projected_size ≥ 512 + 512 then
        if env.readOk then
          let fb := env.fileBytes.drop (env.fileBytes.length - 512)
          if fb.take 8 = conectixStr then
            let r4 := { r3 with projected_size := r3.projected_size - 512 }
            if readBE32 (fb.drop 12) ≠ 65536 ∨ readBE32 (fb.drop 60) ≠ 2 then
              { r4 with is_bootable_img := false }
            else
              { r4 with is_vhd := true }
          else r3
        else r3
      else r3
    else r2
  else r0

/-- The WIM extraction environment: results of the availability probes
run by WimExtractCheck, and the outcomes of the individual steps of
the two backends. -/
structure WimEnv where
  probe_wimgapi : Bool
  probe_7z : Bool
  launchOk : Bool
  artifactPresent : Bool
  renameOk : Bool
  apiOk : Bool
  deriving Repr, DecidableEq

/-- WimExtractFile_7z (vhd.c lines 398-438): fails if the child
process cannot be launched, then fails if the expected artifact
(bootmgfw.efi) is absent from the temp directory after the process
exits, then fails if the rename to the destination fails. -/
def wimExtractFile7z (env : WimEnv) : Bool :=
  env.launchOk && env.artifactPresent && env.renameOk

/-- WimExtractFile_API (vhd.c lines 337-395), abstracted to its
overall success. -/
def wimExtractFileAPI (env : WimEnv) : Bool :=
  env.apiOk

/-- Result of a WimExtractFile call: return value, the registry flags
(has_wimgapi, has_7z) after the call, and whether each backend was
invoked. -/
structure WimResult where
  ret : Bool
  has_wimgapi : Bool
  has_7z : Bool
  tried_7z : Bool
  tried_api : Bool
  deriving Repr, DecidableEq

/-- WimExtractFile (vhd.c lines 441-452).  reg holds the cached
(has_wimgapi, has_7z) flags.  If both are unset, WimExtractCheck runs
first and overwrites them from the probes; a wholly failed probe
returns FALSE.  Then null arguments return FALSE.  Then
(has_7z && 7z(...)) || (has_wimgapi && API(...)) with C short-circuit
evaluation, recorded in the tried flags. -/
def WimExtractFile (image src dst : Option String) (reg : Bool × Bool) (env : WimEnv) : WimResult :=
  let hw := if !reg.1 && !reg.2 then env.probe_wimgapi else reg.1
  let h7 := if !reg.1 && !reg.2 then env.probe_7z else reg.2
  if !reg.1 && !reg.2 && !(hw || h7) then
    { ret := false, has_wimgapi := hw, has_7z := h7, tried_7z := false, tried_api := false }
  else if image = Option.none ∨ src = Option.none ∨ dst = Option.none then
    { ret := false, has_wimgapi := hw, has_7z := h7, tried_7z := false, tried_api := false }
  else if h7 then
    if wimExtractFile7z env then
      { ret := true, has_wimgapi := hw, has_7z := h7, tried_7z := true, tried_api := false }
    else if hw then
      { ret := wimExtractFileAPI env, has_wimgapi := hw, has_7z := h7,
        tried_7z := true, tried_api := true }
    else
      { ret := false, has_wimgapi := hw, has_7z := h7, tried_7z := true, tried_api := false }
  else if hw then
    { ret := wimExtractFileAPI env, has_wimgapi := hw, has_7z := h7,
      tried_7z := false, tried_api := true }
  else
    { ret := false, has_wimgapi := hw, has_7z := h7, tried_7z := false, tried_api := false }

/- Structural lemmas about the footer byte layout. -/

theorem bytesBE_length (w v : Nat) : (bytesBE w v).length = w := by
  induction w generalizing v with
  | zero => rfl
  | succ n ih => simp [bytesBE, ih]

theorem padBytes_length (n : Nat) (l : List Nat) : (padBytes n l).length = n := by
  simp [padBytes]
  omega

theorem serializeFooter_length (f : VhdFooter) : (serializeFooter f).length = 512 := by
  simp [serializeFooter, bytesBE_length, padBytes_length]

theorem bytesBE4_eq (v : Nat) :
    bytesBE 4 v = [v / 16777216 % 256, v / 65536 % 256, v / 256 % 256, v % 256] := by
  simp [bytesBE]

theorem readBE32_bytesBE (v : Nat) (rest : List Nat) :
    readBE32 (bytesBE 4 v ++ rest) = v % 4294967296 := by
  simp [readBE32, bytesBE4_eq]
  omega

theorem serialize_drop12 (f : VhdFooter) : (serializeFooter f).drop 12 =
    bytesBE 4 f.file_format_version ++ (bytesBE 8 f.data_offset ++ (bytesBE 4 f.timestamp ++
    (padBytes 4 f.creator_app ++ (bytesBE 4 f.creator_version ++ (padBytes 4 f.creator_host_os ++
    (bytesBE 8 f.original_size ++ (bytesBE 8 f.current_size ++ (bytesBE 2 f.cylinders ++
    ([f.heads % 256, f.sectors % 256] ++ (bytesBE 4 f.disk_type ++ (bytesBE 4 f.checksum ++
    (padBytes 16 f.unique_id ++ ([f.saved_state % 256] ++ padBytes 427 f.reserved))))))))))))) := by
  simp [serializeFooter, List.drop_append_eq_append_drop, bytesBE_length, padBytes_length,
        List.drop_eq_nil_of_le]

theorem serialize_drop60 (f : VhdFooter) : (serializeFooter f).drop 60 =
    bytesBE 4 f.disk_type ++ (bytesBE 4 f.checksum ++ (padBytes 16 f.unique_id ++
    ([f.saved_state % 256] ++ padBytes 427 f.reserved))) := by
  simp [serializeFooter, List.drop_append_eq_append_drop, bytesBE_length, padBytes_length,
        List.drop_eq_nil_of_le]

theorem serialize_drop64 (f : VhdFooter) : (serializeFooter f).drop 64 =
    bytesBE 4 f.checksum ++ (padBytes 16 f.unique_id ++
    ([f.saved_state % 256] ++ padBytes 427 f.reserved)) := by
  simp [serializeFooter, List.drop_append_eq_append_drop, bytesBE_length, padBytes_length,
        List.drop_eq_nil_of_le]

theorem serialize_take8 (f : VhdFooter) : (serializeFooter f).take 8 = padBytes 8 f.cookie := by
  simp [serializeFooter, List.take_append_eq_append_take, bytesBE_length, padBytes_length,
        List.take_of_length_le]

theorem set_checksum_twice (f : VhdFooter) (a b : Nat) :
    ({ { f with checksum := a } with checksum := b } : VhdFooter) = { f with checksum := b } := rfl

theorem compl32_lt (x : Nat) : compl32 x < 4294967296 := by
  unfold compl32
  omega

/-- Zeroing the checksum field of a serialized footer is the same as
serializing the footer with its checksum field set to zero. -/
theorem zeroChecksum_serialize (f : VhdFooter) :
    zeroChecksumField (serializeFooter f) = serializeFooter { f with checksum := 0 } := by
  simp [zeroChecksumField, serializeFooter, List.take_append_eq_append_take,
        List.drop_append_eq_append_drop, bytesBE_length, padBytes_length,
        List.drop_eq_nil_of_le, List.take_of_length_le, bytesBE4_eq]

theorem footerChecksum_lt (f : VhdFooter) : footerChecksum f < 4294967296 :=
  compl32_lt _

/-- Behaviour of IsHDImage when the open, size query and read succeed,
the extension matches no compression entry, the file is large enough to
hold a footer and the trailing cookie matches: 512 is subtracted from
the projected size, an unsupported version or disk type clears the
bootable flag, and otherwise is_vhd is set. -/
theorem isHDImage_footer_branch (path : String) (env : HDEnv) (r0 : ImageReport)
    (hopen : env.openOk = true) (hsize : env.sizeOk = true) (hread : env.readOk = true)
    (hext : (IsCompressedBootableImage path).1 = BledComp.none)
    (hlen : 1024 ≤ env.fileBytes.length)
    (hcookie : (env.fileBytes.drop (env.fileBytes.length - 512)).take 8 = conectixStr) :
    IsHDImage path env r0 =
      if readBE32 ((env.fileBytes.drop (env.fileBytes.length - 512)).drop 12) ≠ 65536 ∨
         readBE32 ((env.fileBytes.drop (env.fileBytes.length - 512)).drop 60) ≠ 2 then
        { r0 with compression_type := BledComp.none, is_bootable_img := false,
                  projected_size := env.fileBytes.length - 512 }
      else
        { r0 with compression_type := BledComp.none, is_bootable_img := env.mbrBootable,
                  projected_size := env.fileBytes.length - 512, is_vhd := true } := by
  simp only [IsHDImage, hopen, hsize, hread, hext, hcookie, if_true]
  simp [hlen, hcookie]

theorem mkVHDFooter_cookie (n t c : Nat) (u : List Nat) :
    (mkVHDFooter n t c u).cookie = conectixStr := rfl

theorem mkVHDFooter_version (n t c : Nat) (u : List Nat) :
    (mkVHDFooter n t c u).file_format_version = 65536 := rfl

theorem mkVHDFooter_disk_type (n t c : Nat) (u : List Nat) :
    (mkVHDFooter n t c u).disk_type = 2 := rfl

theorem padBytes_conectix : padBytes 8 conectixStr = conectixStr := by decide

/- Concrete inputs used by the witnesses and counterexamples below. -/

/-- A 512-byte zero payload followed by a correctly appended footer. -/
def c3GoodFile : List Nat :=
  List.replicate 512 0 ++ serializeFooter (mkVHDFooter 512 0 0 (List.replicate 16 0))

/-- The same file with one byte inside the reserved region of the
footer (file offset 612, footer offset 100) flipped from 0 to 1, which
invalidates the stored checksum. -/
def c3BadFile : List Nat := c3GoodFile.set 612 1

/-- A file whose correctly formed fixed-disk footer carries
data_offset = 0 instead of the all-ones fixed-disk marker. -/
def dataOffsetZeroFile : List Nat :=
  List.replicate 512 3 ++
    serializeFooter { mkVHDFooter 512 0 0 (List.replicate 16 0) with data_offset := 0 }

/-- A file whose footer carries the dynamic disk type (3) instead of
the fixed disk type (2). -/
def dynamicTypeFile : List Nat :=
  List.replicate 512 0 ++
    serializeFooter { mkVHDFooter 512 0 0 (List.replicate 16 0) with disk_type := 3 }

/-- The WIM environment of the fallback witness: both backends probe
available, the 7-Zip child process launches but leaves no artifact,
the API backend succeeds. -/
def c4Env : WimEnv :=
  { probe_wimgapi := true, probe_7z := true, launchOk := true, artifactPresent := false,
    renameOk := true, apiOk := true }

/-- A WIM environment in which probing finds wimgapi but not 7-Zip and
every extraction step fails. -/
def c9Env : WimEnv :=
  { probe_wimgapi := true, probe_7z := false, launchOk := false, artifactPresent := false,
    renameOk := false, apiOk := false }

/- Claim theorems. -/

/-- C1: encoding a footer for any original size n > 0 the way
AppendVHDFooter populates the record and then validating its 512
serialized bytes the way IsHDImage does yields a matching checksum:
the stored big-endian checksum field equals the ones-complement of
the wrapping byte sum recomputed with the checksum field zeroed. -/
theorem vhd_checksum_roundtrip (n ts cv : Nat) (uid : List Nat) (hn : 0 < n) :
    vhdChecksumMatches (serializeFooter (mkVHDFooter n ts cv uid)) = true := by
  unfold vhdChecksumMatches mkVHDFooter
  rw [serialize_drop64, readBE32_bytesBE, zeroChecksum_serialize, set_checksum_twice]
  rw [Nat.mod_eq_of_lt (footerChecksum_lt _)]
  simp [footerChecksum]

set_option maxRecDepth 100000 in
/-- C1 witness: the round trip evaluated at the concrete size 1024. -/
theorem vhd_checksum_roundtrip_witness :
    0 < 1024 ∧
    vhdChecksumMatches (serializeFooter (mkVHDFooter 1024 0 0 (List.replicate 16 0))) = true :=
  ⟨by decide, vhd_checksum_roundtrip 1024 0 0 (List.replicate 16 0) (by decide)⟩

/-- C2: an uncompressed fixed-disk image of payload size P >= 512 with
a correctly appended footer classifies with projected_size = P (the
512 footer bytes excluded) and the container-format flag (is_vhd)
set. -/
theorem vhd_footer_stripping (path : String) (payload : List Nat) (ts cv : Nat)
    (uid : List Nat) (mbr : Bool)
    (hext : (IsCompressedBootableImage path).1 = BledComp.none)
    (hP : 512 ≤ payload.length) :
    (IsHDImage path
      { openOk := true, sizeOk := true, readOk := true, mbrBootable := mbr,
        fileBytes := payload ++ serializeFooter (mkVHDFooter payload.length ts cv uid) }
      freshReport).projected_size = payload.length ∧
    (IsHDImage path
      { openOk := true, sizeOk := true, readOk := true, mbrBootable := mbr,
        fileBytes := payload ++ serializeFooter (mkVHDFooter payload.length ts cv uid) }
      freshReport).is_vhd = true := by
  have hS := serializeFooter_length (mkVHDFooter payload.length ts cv uid)
  have hlen2 : (payload ++ serializeFooter (mkVHDFooter payload.length ts cv uid)).length
      = payload.length + 512 := by simp [hS]
  have hdrop : (payload ++ serializeFooter (mkVHDFooter payload.length ts cv uid)).drop
      ((payload ++ serializeFooter (mkVHDFooter payload.length ts cv uid)).length - 512)
      = serializeFooter (mkVHDFooter payload.length ts cv uid) := by
    rw [hlen2, Nat.add_sub_cancel]
    exact List.drop_left' rfl
  rw [isHDImage_footer_branch path _ freshReport rfl rfl rfl hext
      (by simp [hlen2]; omega)
      (by simp only []; rw [hdrop, serialize_take8, mkVHDFooter_cookie, padBytes_conectix])]
  simp [hlen2, serialize_drop12, serialize_drop60, readBE32_bytesBE,
        mkVHDFooter_version, mkVHDFooter_disk_type]

set_option maxRecDepth 100000 in
/-- C2 witness: a 512-byte zero payload with its appended footer. -/
theorem vhd_footer_stripping_witness :
    (IsHDImage "disk.img"
      { openOk := true, sizeOk := true, readOk := true, mbrBootable := false,
        fileBytes := List.replicate 512 0 ++
          serializeFooter (mkVHDFooter (List.replicate (512 : Nat) (0 : Nat)).length 0 0
            (List.replicate 16 0)) }
      freshReport).projected_size = (List.replicate (512 : Nat) (0 : Nat)).length ∧
    (IsHDImage "disk.img"
      { openOk := true, sizeOk := true, readOk := true, mbrBootable := false,
        fileBytes := List.replicate 512 0 ++
          serializeFooter (mkVHDFooter (List.replicate (512 : Nat) (0 : Nat)).length 0 0
            (List.replicate 16 0)) }
      freshReport).is_vhd = true :=
  vhd_footer_stripping "disk.img" (List.replicate 512 0) 0 0 (List.replicate 16 0) false
    (by decide) (by decide)

/-- C3: a checksum mismatch never changes the classification outcome:
two files that agree on length, trailing cookie, version field and
disk-type field classify identically even when one has a failing
checksum and the other a correct one. -/
theorem checksum_mismatch_not_fatal (path : String) (r0 : ImageReport)
    (oOk sOk rOk mbr : Bool) (b b2 : List Nat)
    (hlen : b2.length = b.length)
    (hcookie : (b2.drop (b2.length - 512)).take 8 = (b.drop (b.length - 512)).take 8)
    (hver : readBE32 ((b2.drop (b2.length - 512)).drop 12) =
            readBE32 ((b.drop (b.length - 512)).drop 12))
    (hty : readBE32 ((b2.drop (b2.length - 512)).drop 60) =
           readBE32 ((b.drop (b.length - 512)).drop 60))
    (hbad : vhdChecksumMatches (b2.drop (b2.length - 512)) = false)
    (hgood : vhdChecksumMatches (b.drop (b.length - 512)) = true) :
    IsHDImage path
      { openOk := oOk, sizeOk := sOk, readOk := rOk, mbrBootable := mbr, fileBytes := b2 } r0 =
    IsHDImage path
      { openOk := oOk, sizeOk := sOk, readOk := rOk, mbrBootable := mbr, fileBytes := b } r0 := by
  rw [hlen] at hcookie hver hty
  simp only [IsHDImage]
  rw [hlen]
  simp only [hcookie, hver, hty]

set_option maxRecDepth 1000000 in
/-- C3 witness: flipping the reserved byte at footer offset 100
invalidates the checksum but classification is unchanged. -/
theorem checksum_mismatch_not_fatal_witness :
    IsHDImage "disk.img"
      { openOk := true, sizeOk := true, readOk := true, mbrBootable := true,
        fileBytes := c3BadFile } freshReport =
    IsHDImage "disk.img"
      { openOk := true, sizeOk := true, readOk := true, mbrBootable := true,
        fileBytes := c3GoodFile } freshReport :=
  checksum_mismatch_not_fatal "disk.img" freshReport true true true true c3GoodFile c3BadFile
    (by decide) (by decide) (by decide) (by decide) (by decide) (by decide)

/-- C4: when both backends are marked available and the 7-Zip backend
fails because its expected artifact is absent, WimExtractFile attempts
the API backend and the overall result is the API backend result (the
backends are tried in the order tool then API). -/
theorem wim_tool_fallback (i s d : String) (env : WimEnv)
    (hlaunch : env.launchOk = true) (hart : env.artifactPresent = false) :
    (WimExtractFile (some i) (some s) (some d) (true, true) env).tried_7z = true ∧
    (WimExtractFile (some i) (some s) (some d) (true, true) env).tried_api = true ∧
    (WimExtractFile (some i) (some s) (some d) (true, true) env).ret = wimExtractFileAPI env := by
  simp [WimExtractFile, wimExtractFile7z, hart]

/-- C4 witness: concrete arguments against c4Env. -/
theorem wim_tool_fallback_witness :
    (WimExtractFile (some "install.wim") (some "bootmgfw.efi") (some "dst") (true, true)
      c4Env).tried_7z = true ∧
    (WimExtractFile (some "install.wim") (some "bootmgfw.efi") (some "dst") (true, true)
      c4Env).tried_api = true ∧
    (WimExtractFile (some "install.wim") (some "bootmgfw.efi") (some "dst") (true, true)
      c4Env).ret = wimExtractFileAPI c4Env :=
  wim_tool_fallback "install.wim" "bootmgfw.efi" "dst" c4Env rfl rfl

/-- C5 counterexample: at totalSectors = 65535*16*63 the geometry
algorithm selects sectorsPerTrack = 255, not 63 as claimed (the
clamped branch condition is a non-strict comparison). -/
theorem chs_threshold_cex :
    (computeCHS (65535 * 16 * 63)).sectorsPerTrack = 255 ∧
    (computeCHS (65535 * 16 * 63)).heads = 16 ∧
    (computeCHS (65535 * 16 * 63)).sectorsPerTrack ≠ 63 := by
  decide

/-- C5 (amended): at totalSectors = 65535*16*63 the algorithm selects
sectorsPerTrack = 255 and heads = 16; and any size whose sector count
exceeds 65535*16*255 is clamped to 65535*16*255 before the geometry
computation. -/
theorem chs_threshold_and_clamp :
    (computeCHS (65535 * 16 * 63)).sectorsPerTrack = 255 ∧
    (computeCHS (65535 * 16 * 63)).heads = 16 ∧
    ∀ fileSize : Nat, 65535 * 16 * 255 < fileSize / 512 →
      vhdTotalSectors fileSize = 65535 * 16 * 255 := by
  refine ⟨by decide, by decide, ?_⟩
  intro fs h
  unfold vhdTotalSectors
  omega

/-- C5 witness: the clamp evaluated at a 1 TB size. -/
theorem chs_clamp_witness : vhdTotalSectors 1099511627776 = 65535 * 16 * 255 :=
  chs_threshold_and_clamp.2.2 1099511627776 (by decide)

set_option maxRecDepth 1000000 in
/-- C6 counterexample: a footer whose data_offset is 0 (not the
all-ones fixed-disk marker) but whose version and disk type match is
still treated as the supported variant: the bootable flag is not
cleared and is_vhd is set, so data_offset is not part of the gate. -/
theorem data_offset_not_checked_cex :
    ({ mkVHDFooter 512 0 0 (List.replicate 16 0) with data_offset := 0 } : VhdFooter).data_offset ≠
      18446744073709551615 ∧
    (IsHDImage "disk.img"
      { openOk := true, sizeOk := true, readOk := true, mbrBootable := true,
        fileBytes := dataOffsetZeroFile } freshReport).is_bootable_img = true ∧
    (IsHDImage "disk.img"
      { openOk := true, sizeOk := true, readOk := true, mbrBootable := true,
        fileBytes := dataOffsetZeroFile } freshReport).is_vhd = true := by
  decide

/-- C6 (amended): for a decoded footer with matching cookie the record
is treated as the supported variant exactly when file_format_version
is the v1.0 constant and disk_type is fixed-hard-disk; any other
combination of these two fields clears the bootable flag; data_offset
is not inspected. -/
theorem vhd_supported_gate (path : String) (env : HDEnv) (r0 : ImageReport)
    (hopen : env.openOk = true) (hsize : env.sizeOk = true) (hread : env.readOk = true)
    (hext : (IsCompressedBootableImage path).1 = BledComp.none)
    (hlen : 1024 ≤ env.fileBytes.length)
    (hcookie : (env.fileBytes.drop (env.fileBytes.length - 512)).take 8 = conectixStr) :
    ((readBE32 ((env.fileBytes.drop (env.fileBytes.length - 512)).drop 12) = 65536 ∧
      readBE32 ((env.fileBytes.drop (env.fileBytes.length - 512)).drop 60) = 2) →
      (IsHDImage path env r0).is_vhd = true ∧
      (IsHDImage path env r0).is_bootable_img = env.mbrBootable) ∧
    ((readBE32 ((env.fileBytes.drop (env.fileBytes.length - 512)).drop 12) ≠ 65536 ∨
      readBE32 ((env.fileBytes.drop (env.fileBytes.length - 512)).drop 60) ≠ 2) →
      (IsHDImage path env r0).is_bootable_img = false) := by
  rw [isHDImage_footer_branch path env r0 hopen hsize hread hext hlen hcookie]
  constructor
  · intro h
    rw [if_neg (fun hc => hc.elim (fun a => a h.1) (fun a => a h.2))]
    exact ⟨rfl, rfl⟩
  · intro h
    rw [if_pos h]

set_option maxRecDepth 1000000 in
/-- C6 witness: the supported direction of the gate evaluated on a
correctly appended footer. -/
theorem vhd_supported_gate_witness :
    (IsHDImage "disk.img"
      { openOk := true, sizeOk := true, readOk := true, mbrBootable := true,
        fileBytes := c3GoodFile } freshReport).is_vhd = true ∧
    (IsHDImage "disk.img"
      { openOk := true, sizeOk := true, readOk := true, mbrBootable := true,
        fileBytes := c3GoodFile } freshReport).is_bootable_img = true :=
  (vhd_supported_gate "disk.img"
    { openOk := true, sizeOk := true, readOk := true, mbrBootable := true,
      fileBytes := c3GoodFile } freshReport rfl rfl rfl
    (by decide) (by decide) (by decide)).1 ⟨by decide, by decide⟩

/-- C7: when the file cannot be opened for reading, classification
leaves a fresh report untouched: the bootable flag is false and no
other signal is produced. -/
theorem vhd_open_failure (path : String) (env : HDEnv) (h : env.openOk = false) :
    IsHDImage path env freshReport = freshReport ∧
    (IsHDImage path env freshReport).is_bootable_img = false ∧
    (IsHDImage path env freshReport).is_vhd = false ∧
    (IsHDImage path env freshReport).compression_type = BledComp.none ∧
    (IsHDImage path env freshReport).projected_size = 0 := by
  simp [IsHDImage, h, freshReport]

/-- C7 witness: a concrete failing open. -/
theorem vhd_open_failure_witness :
    IsHDImage "missing.img"
      { openOk := false, sizeOk := false, readOk := false, mbrBootable := false, fileBytes := [] }
      freshReport = freshReport ∧
    (IsHDImage "missing.img"
      { openOk := false, sizeOk := false, readOk := false, mbrBootable := false, fileBytes := [] }
      freshReport).is_bootable_img = false ∧
    (IsHDImage "missing.img"
      { openOk := false, sizeOk := false, readOk := false, mbrBootable := false, fileBytes := [] }
      freshReport).is_vhd = false ∧
    (IsHDImage "missing.img"
      { openOk := false, sizeOk := false, readOk := false, mbrBootable := false, fileBytes := [] }
      freshReport).compression_type = BledComp.none ∧
    (IsHDImage "missing.img"
      { openOk := false, sizeOk := false, readOk := false, mbrBootable := false, fileBytes := [] }
      freshReport).projected_size = 0 :=
  vhd_open_failure "missing.img" _ rfl

/-- C8: the extension table is case-sensitive and keyed on the
substring after the final dot: "image.tar.gz" maps to gzip, "image"
(no dot) to none, "image.z" (lowercase) to none and "image.Z" to
lzw. -/
theorem extension_table_cases :
    IsCompressedBootableImage "image.tar.gz" = (BledComp.gzip, true) ∧
    IsCompressedBootableImage "image" = (BledComp.none, false) ∧
    IsCompressedBootableImage "image.z" = (BledComp.none, false) ∧
    IsCompressedBootableImage "image.Z" = (BledComp.lzw, true) := by
  decide

/-- C9 counterexample: with all path arguments present except a null
container path and the registry flags both unset, the call still runs
the availability probe first, so the registry state changes (here
has_wimgapi becomes true) even though the call returns false without
invoking a backend. -/
theorem wim_null_probe_cex :
    (WimExtractFile Option.none (some "src") (some "dst") (false, false) c9Env).ret = false ∧
    (WimExtractFile Option.none (some "src") (some "dst") (false, false) c9Env).tried_7z = false ∧
    (WimExtractFile Option.none (some "src") (some "dst") (false, false) c9Env).tried_api = false ∧
    (WimExtractFile Option.none (some "src") (some "dst") (false, false) c9Env).has_wimgapi = true := by
  decide

/-- C9 (amended): a null container, member or destination path makes
WimExtractFile return false without invoking either backend; the
registry flags are left unchanged provided at least one of them was
set, but when both are unset the availability probe runs first and may
rewrite them. -/
theorem wim_null_guard (image src dst : Option String) (reg : Bool × Bool) (env : WimEnv)
    (h : image = Option.none ∨ src = Option.none ∨ dst = Option.none) :
    (WimExtractFile image src dst reg env).ret = false ∧
    (WimExtractFile image src dst reg env).tried_7z = false ∧
    (WimExtractFile image src dst reg env).tried_api = false ∧
    (reg.1 = true ∨ reg.2 = true →
      (WimExtractFile image src dst reg env).has_wimgapi = reg.1 ∧
      (WimExtractFile image src dst reg env).has_7z = reg.2) := by
  obtain ⟨r1, r2⟩ := reg
  cases r1 <;> cases r2 <;> simp [WimExtractFile, h] <;> split <;> simp

/-- C9 witness: a null container path with the 7-Zip flag cached. -/
theorem wim_null_guard_witness :
    (WimExtractFile Option.none (some "src") (some "dst") (true, false) c9Env).ret = false ∧
    (WimExtractFile Option.none (some "src") (some "dst") (true, false) c9Env).tried_7z = false ∧
    (WimExtractFile Option.none (some "src") (some "dst") (true, false) c9Env).tried_api = false ∧
    (true = true ∨ false = true →
      (WimExtractFile Option.none (some "src") (some "dst") (true, false) c9Env).has_wimgapi = true ∧
      (WimExtractFile Option.none (some "src") (some "dst") (true, false) c9Env).has_7z = false) :=
  wim_null_guard Option.none (some "src") (some "dst") (true, false) c9Env (Or.inl rfl)

/-- C10: when the trailing cookie matches but the version or disk type
is unsupported, the projected size is still reduced by 512 even though
the report comes back non-bootable. -/
theorem vhd_unsupported_still_strips (path : String) (env : HDEnv) (r0 : ImageReport)
    (hopen : env.openOk = true) (hsize : env.sizeOk = true) (hread : env.readOk = true)
    (hext : (IsCompressedBootableImage path).1 = BledComp.none)
    (hlen : 1024 ≤ env.fileBytes.length)
    (hcookie : (env.fileBytes.drop (env.fileBytes.length - 512)).take 8 = conectixStr)
    (hunsup : readBE32 ((env.fileBytes.drop (env.fileBytes.length - 512)).drop 12) ≠ 65536 ∨
              readBE32 ((env.fileBytes.drop (env.fileBytes.length - 512)).drop 60) ≠ 2) :
    (IsHDImage path env r0).projected_size = env.fileBytes.length - 512 ∧
    (IsHDImage path env r0).is_bootable_img = false := by
  rw [isHDImage_footer_branch path env r0 hopen hsize hread hext hlen hcookie, if_pos hunsup]
  exact ⟨rfl, rfl⟩

set_option maxRecDepth 1000000 in
/-- C10 witness: a file with a dynamic-disk footer still has 512
subtracted from its projected size. -/
theorem vhd_unsupported_still_strips_witness :
    (IsHDImage "disk.img"
      { openOk := true, sizeOk := true, readOk := true, mbrBootable := true,
        fileBytes := dynamicTypeFile } freshReport).projected_size =
      dynamicTypeFile.length - 512 ∧
    (IsHDImage "disk.img"
      { openOk := true, sizeOk := true, readOk := true, mbrBootable := true,
        fileBytes := dynamicTypeFile } freshReport).is_bootable_img = false :=
  vhd_unsupported_still_strips "disk.img"
    { openOk := true, sizeOk := true, readOk := true, mbrBootable := true,
      fileBytes := dynamicTypeFile } freshReport rfl rfl rfl
    (by decide) (by decide) (by decide) (Or.inr (by decide))

end Vhd
